import Mathlib

/-!
Verification of `sync_favorites.py` (FreshRSS favorites → Hugo posts sync).

The script is shallowly embedded: file contents are lists of characters,
Python's dynamically typed values are the inductive `PyVal`, exceptions are
`Except PyErr`, the filesystem directories touched by the code are
association lists from file name to content, and the external collaborators
(the FreshRSS HTTP API, the OpenAI API, git and the GitHub API) enter as
explicit inputs of the embedded functions.  Each embedded definition keeps
the name of the Python function it is translated from.
-/

set_option autoImplicit false

namespace SyncFavorites

/-- File contents and Python strings are modelled as lists of characters. -/
abbrev Str := List Char

/-- `pyFindAux pat s i` is the least `j ≥ i` (as an offset into `s` prepended
with `i` dropped characters) such that `pat` is a prefix of `s` dropped by
`j - i`; `none` when there is no occurrence. -/
def pyFindAux (pat : Str) : Str → Nat → Option Nat
  | [], i => if pat = [] then some i else none
  | c :: rest, i =>
    if pat.isPrefixOf (c :: rest) then some i else pyFindAux pat rest (i + 1)

/-- Python's `s.find(pat, start)`: index of the first occurrence of `pat` in
`s` at or after `start`, as `Option` (Python's `-1` becomes `none`). -/
def pyFind (s pat : Str) (start : Nat) : Option Nat :=
  pyFindAux pat (s.drop start) start

/-- Python's slice `s[a:b]` for `0 ≤ a` and an `Int` end index `b`
(a negative `b` counts from the end of the string, clamped at `0`). -/
def pySlice (s : Str) (a : Nat) (b : Int) : Str :=
  let n : Int := s.length
  let e : Int := if b < 0 then max (n + b) 0 else min b n
  (s.take e.toNat).drop a

/-- Python's `s.startswith(pat)`. -/
def pyStartsWith (s pat : Str) : Bool := pat.isPrefixOf s

/-- Python's `s.endswith(pat)`. -/
def pyEndsWith (s pat : Str) : Bool := pat.isSuffixOf s

/-- A value stored under a key of a metadata mapping.  In every data flow of
this script such a value is `None`, a string, or a list of strings (the
front matter holds strings and string lists, and `.get` defaults to `None`),
so the fragment is closed under everything the embedded functions compute. -/
inductive YamlVal where
  | vnone
  | vstr (s : Str)
  | vlist (xs : List Str)
  deriving DecidableEq, Repr

/-- A Python value as far as this script manipulates one: `None`, a string,
or a dict (an association list in insertion order, as Python dicts preserve
insertion order). -/
inductive PyVal where
  | none
  | str (s : Str)
  | dict (entries : List (Str × YamlVal))
  deriving DecidableEq, Repr

/-- The exceptions the embedded code can raise. -/
inductive PyErr where
  /-- `AttributeError`, e.g. calling `.get` on `None` or on a `str`. -/
  | attributeError
  /-- `TypeError`, e.g. subscripting a `str` with a string key. -/
  | typeError
  /-- `KeyError`, subscripting a dict with a missing key. -/
  | keyError
  /-- `yaml.YAMLError` from `yaml.safe_load`. -/
  | yamlError
  /-- A failure of a remote API call (requests/openai/github exceptions). -/
  | apiError
  /-- `ValueError` raised by the script itself. -/
  | valueError
  deriving DecidableEq, Repr

/-- Python `d.get(k)` on the entry list of a dict: first value bound to `k`,
`None` when absent. -/
def pyDictGet (es : List (Str × YamlVal)) (k : Str) : YamlVal :=
  match es.find? (fun e => e.1 = k) with
  | some e => e.2
  | Option.none => YamlVal.vnone

/-- Python `d.get(k, default)` on the entry list of a dict. -/
def pyDictGetD (es : List (Str × YamlVal)) (k : Str) (d : YamlVal) : YamlVal :=
  match es.find? (fun e => e.1 = k) with
  | some e => e.2
  | Option.none => d

/-- Python attribute call `v.get(k)`: only dicts have `.get`; on any other
value (`None`, `str`) it raises `AttributeError`. -/
def pyGetAttrGet (v : PyVal) (k : Str) : Except PyErr YamlVal :=
  match v with
  | .dict es => .ok (pyDictGet es k)
  | _ => .error .attributeError

/-- Python subscript `v[k]` with a string key: on a dict it is the bound
value (`KeyError` when absent); a string index on a `str` raises `TypeError`;
on `None` it raises `TypeError` as well. -/
def pySubscript (v : PyVal) (k : Str) : Except PyErr YamlVal :=
  match v with
  | .dict es =>
    match es.find? (fun e => e.1 = k) with
    | some e => .ok e.2
    | Option.none => .error .keyError
  | _ => .error .typeError

/-! ### Model of `yaml.safe_load` / `yaml.dump`

PyYAML is an external library; it is modelled on the fragment this script
produces and scans: block mappings whose values are plain or single-quoted
scalars or block sequences of scalars, a lone plain scalar document (which
loads as a Python `str`), and the empty/blank document (which loads as
`None`).  Anything outside the fragment loads as a `YAMLError`. -/

/-- A character is blank (space or tab). -/
def isBlankChar (c : Char) : Bool := c = ' ' ∨ c = '\t'

/-- A line consisting only of blanks. -/
def isBlankStr (s : Str) : Bool := s.all isBlankChar

/-- Split on newline characters. -/
def splitLines : Str → List Str
  | [] => [[]]
  | c :: rest =>
    if c = '\n' then [] :: splitLines rest
    else
      match splitLines rest with
      | [] => [[c]]
      | l :: ls => (c :: l) :: ls

/-- Strip blanks from both ends of a line. -/
def strTrim (s : Str) : Str :=
  ((s.dropWhile isBlankChar).reverse.dropWhile isBlankChar).reverse

/-- A scalar as `safe_load` reads it: single-quoted scalars lose their
quotes, anything else is taken verbatim (after trimming). -/
def parseScalar (s : Str) : Str :=
  let t := strTrim s
  match t with
  | '\'' :: rest =>
    if rest ≠ [] ∧ rest.getLast? = some '\'' then rest.dropLast else t
  | _ => t

/-- Split a line at the first `:` that is followed by a blank or ends the
line, into key and raw value; `none` when the line is not a mapping entry. -/
def splitKeyValue (line : Str) : Option (Str × Str) :=
  match pyFind line [':'] 0 with
  | Option.none => Option.none
  | some i =>
    let key := line.take i
    let rest := line.drop (i + 1)
    match rest with
    | [] => some (strTrim key, [])
    | c :: _ => if isBlankChar c then some (strTrim key, rest) else Option.none

/-- Collect the leading `- item` lines of a block sequence. -/
def takeItems : List Str → (List Str × List Str)
  | [] => ([], [])
  | line :: rest =>
    if pyStartsWith line ['-', ' '] then
      let (is, r) := takeItems rest
      (parseScalar (line.drop 2) :: is, r)
    else ([], line :: rest)

theorem takeItems_length_le (lines : List Str) :
    (takeItems lines).2.length ≤ lines.length := by
  induction lines with
  | nil => simp [takeItems]
  | cons l rest ih =>
    simp only [takeItems]
    by_cases h : pyStartsWith l ['-', ' '] = true
    · simp only [h, if_pos]
      exact le_trans ih (Nat.le_succ _)
    · simp [h]

/-- Parse the lines of a block mapping into dict entries (fuelled; the fuel
is always at least the number of lines plus one at the call site). -/
def parseEntries : Nat → List Str → Except PyErr (List (Str × YamlVal))
  | 0, _ => .error .yamlError
  | _ + 1, [] => .ok []
  | n + 1, line :: rest =>
    if isBlankStr line then parseEntries n rest
    else
      match splitKeyValue line with
      | Option.none => .error .yamlError
      | some (k, rawv) =>
        if isBlankStr rawv then
          let (items, rest') := takeItems rest
          let value := if items = [] then YamlVal.vnone else YamlVal.vlist items
          match parseEntries n rest' with
          | .ok es => .ok ((k, value) :: es)
          | .error e => .error e
        else
          match parseEntries n rest with
          | .ok es => .ok ((k, YamlVal.vstr (parseScalar rawv)) :: es)
          | .error e => .error e

/-- Model of `yaml.safe_load` on the fragment described above.  A blank
document loads as `None`, a block mapping as a dict, a lone plain scalar as
a `str`; everything else raises `YAMLError`. -/
def yamlSafeLoad (s : Str) : Except PyErr PyVal :=
  let lines := splitLines s
  let nonblank := lines.filter (fun l => ¬ isBlankStr l)
  if nonblank = [] then .ok PyVal.none
  else
    match parseEntries (lines.length + 1) lines with
    | .ok es => .ok (.dict es)
    | .error _ =>
      match nonblank with
      | [l] =>
        if (splitKeyValue l).isNone then .ok (.str (parseScalar l))
        else .error .yamlError
      | _ => .error .yamlError

/-- PyYAML quotes a plain scalar that could be read back as a non-string
value.  Among the strings this script dumps, that is the `YYYY-MM-DD` date
string (read back as a timestamp when left plain). -/
def looksLikeDate (s : Str) : Bool :=
  match s with
  | [a, b, c, d, h1, e, f, h2, g, i] =>
    a.isDigit ∧ b.isDigit ∧ c.isDigit ∧ d.isDigit ∧ h1 = '-' ∧
    e.isDigit ∧ f.isDigit ∧ h2 = '-' ∧ g.isDigit ∧ i.isDigit
  | _ => false

/-- Scalars PyYAML emits without quotes: non-empty, alphanumeric first and
last character, characters from the plain set, no `: ` inside, and not
resembling a non-string scalar (date, boolean, null words). -/
def plainSafe (s : Str) : Bool :=
  s ≠ [] ∧
  (s.head?.elim false Char.isAlphanum) ∧
  (s.getLast?.elim false (fun c => c.isAlphanum ∨ c = '.' ∨ c = '/')) ∧
  s.all (fun c => c.isAlphanum ∨ c = ' ' ∨ c = '-' ∨ c = '.' ∨ c = '/' ∨
    c = '_' ∨ c = ':' ∨ c = ',') ∧
  (pyFind s (": ".data) 0).isNone ∧
  ¬ looksLikeDate s ∧
  ¬ (s.map Char.toLower) ∈ ["null".data, "true".data, "false".data,
    "yes".data, "no".data, "on".data, "off".data]

/-- A scalar as `yaml.dump` writes it: plain when safe, otherwise wrapped in
single quotes (the fragment this script emits contains no quote characters
that would need doubling). -/
def yamlDumpScalar (s : Str) : Str :=
  if plainSafe s then s else '\'' :: (s ++ ['\''])

/-- One `key: value` entry as `yaml.dump` writes it in block style
(`default_flow_style` off): string values inline, list values as a block
sequence of `- item` lines, `None` as `null`. -/
def yamlDumpEntry (k : Str) (v : YamlVal) : Str :=
  match v with
  | .vstr s => k ++ ": ".data ++ yamlDumpScalar s ++ ['\n']
  | .vlist xs =>
    k ++ ":\n".data ++
      xs.foldr (fun x acc => "- ".data ++ yamlDumpScalar x ++ '\n' :: acc) []
  | .vnone => k ++ ": null\n".data

/-- Model of `yaml.dump` with `sort_keys` off: entries in insertion order. -/
def yamlDump (es : List (Str × YamlVal)) : Str :=
  es.foldr (fun e acc => yamlDumpEntry e.1 e.2 ++ acc) []

/-! ### Slugification (`slugify` from python-slugify, ASCII fragment) -/

/-- Lowercase alphanumerics kept, every other character turned into a
separator. -/
def slugifyCore : Str → Str
  | [] => []
  | c :: rest => (if c.isAlphanum then c.toLower else '-') :: slugifyCore rest

/-- Collapse runs of separators (the flag records whether the previous kept
character was a separator). -/
def collapseDashes : Str → Bool → Str
  | [], _ => []
  | c :: rest, prevDash =>
    if c = '-' then
      if prevDash then collapseDashes rest true
      else '-' :: collapseDashes rest true
    else c :: collapseDashes rest false

/-- Strip separators from both ends. -/
def trimDashes (s : Str) : Str :=
  ((s.dropWhile (fun c => c = '-')).reverse.dropWhile (fun c => c = '-')).reverse

/-- Model of `slugify`: lowercase, non-alphanumerics to single hyphens,
trimmed — a filesystem-safe hyphenated token. -/
def slugify (s : Str) : Str := trimDashes (collapseDashes (slugifyCore s) false)

/-! ### Articles, the summarizer adapter and the document renderer -/

/-- An article as `fetch_new_favorites` builds one. -/
structure Article where
  title : Str
  author : Str
  content : Str
  link : Str
  feed_name : Str
  /-- The published date already rendered with `%Y-%m-%d`, the only form in
  which `generate_markdown` uses it (front matter and filename alike). -/
  published_ymd : Str
  deriving DecidableEq, Repr

/-- Embedding of `call_llm_for_summary`.  The OpenAI exchange is an input:
`llm` maps the article content to the reply message content, or to a
transport/provider failure.  The Python function returns
`response.choices[0].message.content` unchanged — the raw reply string —
performing no JSON parsing and no shape validation (its docstring promises
a dict); a missing `LLM_API_KEY` raises `ValueError` before the call. -/
def call_llm_for_summary (api_key_set : Bool) (llm : Str → Except PyErr Str)
    (article_content : Str) : Except PyErr PyVal :=
  if api_key_set then
    match llm article_content with
    | .ok reply => .ok (.str reply)
    | .error e => .error e
  else .error .valueError

/-- Python attribute call `v.get(k, default)`: only dicts have `.get`. -/
def pyGetAttrGetD (v : PyVal) (k : Str) (d : YamlVal) : Except PyErr YamlVal :=
  match v with
  | .dict es => .ok (pyDictGetD es k d)
  | _ => .error .attributeError

/-- Embedding of `generate_markdown`, returning `(markdown, filename)`.
The front-matter dict literal is evaluated left to right, so
`llm_summary["summary"]` runs (and can raise `TypeError` on a string
argument) before the `.get` calls with their defaults. -/
def generate_markdown (article : Article) (llm_summary : PyVal) :
    Except PyErr (Str × Str) := do
  let summaryVal ← pySubscript llm_summary ("summary".data)
  let tagsVal ← pyGetAttrGetD llm_summary ("tags".data)
    (.vlist ["uncategorized".data])
  let catsVal ← pyGetAttrGetD llm_summary ("categories".data)
    (.vlist ["general".data])
  let front_matter : List (Str × YamlVal) :=
    [("title".data, .vstr article.title),
     ("author".data, .vstr article.author),
     ("link".data, .vstr article.link),
     ("source".data, .vstr article.feed_name),
     ("summary".data, summaryVal),
     ("tags".data, tagsVal),
     ("categories".data, catsVal),
     ("date".data, .vstr article.published_ymd)]
  let filename := article.published_ymd ++ '-' :: slugify article.title ++ ".md".data
  let markdown := "---\n".data ++ yamlDump front_matter ++ "---\n\n".data ++
    article.content
  .ok (markdown, filename)

/-! ### Duplicate guard and repository writer -/

/-- The front-matter delimiter. -/
def fmDelim : Str := "---".data

/-- A directory as a list of `(file name, content)` pairs in scan order. -/
abbrev Dir := List (Str × Str)

/-- One file's step of `_check_duplicate_link`: a file not starting with the
delimiter, or with no closing delimiter after index 3, is passed over
(`ok false`); otherwise the block between the delimiters is loaded with
`yaml.safe_load` and its `link` compared to the candidate — propagating
whatever the load or the `.get` attribute access raises. -/
def checkFileForLink (link : YamlVal) (content : Str) : Except PyErr Bool :=
  if pyStartsWith content fmDelim then
    match pyFind content fmDelim 3 with
    | some fmEnd => do
      let front_matter ← yamlSafeLoad (pySlice content 3 fmEnd)
      let v ← pyGetAttrGet front_matter ("link".data)
      .ok (v = link)
    | Option.none => .ok false
  else .ok false

/-- Embedding of `_check_duplicate_link`: iterate over
`content_dir.glob("*.md")` (files whose name ends in `.md`; `pathlib` glob
does not exclude dot-files) and return true at the first file whose front
matter binds `link` to the candidate. -/
def check_duplicate_link (link : YamlVal) : Dir → Except PyErr Bool
  | [] => .ok false
  | f :: rest =>
    if pyEndsWith f.1 (".md".data) then
      match checkFileForLink link f.2 with
      | .error e => .error e
      | .ok true => .ok true
      | .ok false => check_duplicate_link link rest
    else check_duplicate_link link rest

/-- `Path.write_text`: overwrite when the name exists, else create. -/
def dirWrite (d : Dir) (name content : Str) : Dir :=
  if d.any (fun f => f.1 = name) then
    d.map (fun f => if f.1 = name then (name, content) else f)
  else d ++ [(name, content)]

/-- Embedding of `write_markdown_to_repo`, acting on the `content/reading`
directory.  As in the source, the link is re-extracted from
`markdown_content` itself (a bare `find`, so a missing closing delimiter
yields Python's `-1`, i.e. a slice ending one character before the end),
the guard is re-run on that embedded link, and the file is written only
when the guard answers false.  Returns the written/skipped flag with the
directory after the call. -/
def write_markdown_to_repo (filename markdown_content : Str)
    (content_dir : Dir) : Except PyErr (Bool × Dir) := do
  let fmEnd : Int := match pyFind markdown_content fmDelim 3 with
    | some i => (i : Int)
    | Option.none => -1
  let front_matter ← yamlSafeLoad (pySlice markdown_content 3 fmEnd)
  let link ← pyGetAttrGet front_matter ("link".data)
  let dup ← check_duplicate_link link content_dir
  if dup then .ok (false, content_dir)
  else .ok (true, dirWrite content_dir filename markdown_content)

/-! ### Feed export sync -/

/-- Result of `update_opml_file`: its return value, the export file after
the call, and how many filesystem writes the call performed. -/
structure OpmlResult where
  ret : Bool
  file : Option Str
  writes : Nat
  deriving DecidableEq, Repr

/-- Embedding of `update_opml_file`.  The export fetch enters as
`response` (its transport failures propagate, as `raise_for_status` does);
`existing` is the on-disk `static/myfeeds.opml`, when present.  The fetched
bytes are compared with the existing copy and written only on difference —
and the function returns `True` on both branches. -/
def update_opml_file (response : Except PyErr Str) (existing : Option Str) :
    Except PyErr OpmlResult :=
  match response with
  | .error e => .error e
  | .ok content =>
    match existing with
    | some cur =>
      if cur = content then .ok ⟨true, some cur, 0⟩
      else .ok ⟨true, some content, 1⟩
    | Option.none => .ok ⟨true, some content, 1⟩

/-! ### Change publisher (git branch/commit and pull request) -/

/-- The two pathspecs of `git add content/reading/* myfeeds.opml`, run at
the repository root. -/
def gitAddPathspecs : List Str := ["content/reading/*".data, "myfeeds.opml".data]

/-- Git pathspec matching for the two shapes the script uses: a trailing
`*` matches any (possibly slash-containing) suffix; a literal pathspec
matches that exact path. -/
def matchesPathspec (spec path : Str) : Bool :=
  if spec.getLast? = some '*' then pyStartsWith path spec.dropLast
  else path = spec

/-- Result of `create_git_branch_and_commit`: return value, local branches
after the call, the set of staged-and-committed paths, and whether a commit
and a push happened. -/
structure GitCommitResult where
  ret : Bool
  branchesAfter : List Str
  staged : List Str
  committed : Bool
  pushed : Bool
  deriving DecidableEq, Repr

/-- Embedding of `create_git_branch_and_commit`.  The working tree enters
as the list of files present (`worktree`) and the sublist with uncommitted
changes (`changed`, what `git status --porcelain` reports); `branches` are
the existing local branch names.  With no changes the function returns
false at once.  `git checkout -b` exits nonzero when the branch already
exists; `git add` exits nonzero when one of its pathspecs matches no file
of the working tree; `git commit` exits nonzero when nothing is staged —
each `CalledProcessError` is caught and turned into a false return. -/
def create_git_branch_and_commit (worktree changed branches : List Str)
    (branch_name : Option Str) (today_compact : Str) : GitCommitResult :=
  if changed = [] then ⟨false, branches, [], false, false⟩
  else
    let name := branch_name.getD ("reading-update-".data ++ today_compact)
    if name ∈ branches then ⟨false, branches, [], false, false⟩
    else
      let branches' := branches ++ [name]
      if gitAddPathspecs.any
          (fun sp => ¬ worktree.any (fun p => matchesPathspec sp p)) then
        ⟨false, branches', [], false, false⟩
      else
        let staged := changed.filter
          (fun p => gitAddPathspecs.any (fun sp => matchesPathspec sp p))
        if staged = [] then ⟨false, branches', [], false, false⟩
        else ⟨true, branches', staged, true, true⟩

/-- An open pull request of the target repository. -/
structure PullReq where
  head : Str
  base : Str
  url : Str
  deriving DecidableEq, Repr

/-- Embedding of `create_pull_request` over the host state (the repository's
open pull requests); `new_url` is the URL the host would assign to a newly
created request.  An open request from `branch_name` to `base_branch` is
reused; otherwise one is created.  (Host exceptions, caught into a `None`
return in the source, are outside this model: the host is taken as
responsive.) -/
def create_pull_request (openPRs : List PullReq) (branch_name base_branch : Str)
    (new_url : Str) : Option Str × List PullReq :=
  match openPRs.filter (fun p => p.head = branch_name ∧ p.base = base_branch) with
  | p :: _ => (some p.url, openPRs)
  | [] => (some new_url, openPRs ++ [⟨branch_name, base_branch, new_url⟩])

/-! ### Merge watcher -/

/-- A check run as the loop reads it: its name and its conclusion (`none`
while still running). -/
structure CheckRun where
  name : Str
  conclusion : Option Str
  deriving DecidableEq, Repr

/-- What one poll tick observes: the combined status state string and the
list of check runs. -/
structure PollStatus where
  combined : Str
  checks : List CheckRun
  deriving DecidableEq, Repr

/-- `next((check for check in checks if 'netlify' in check.name.lower()), None)`. -/
def netlifyCheck (checks : List CheckRun) : Option CheckRun :=
  checks.find?
    (fun c => (pyFind (c.name.map Char.toLower) ("netlify".data) 0).isSome)

/-- The merge condition of one tick: combined status `success` and, when a
netlify check exists, its conclusion `success`. -/
def mergeCondition (st : PollStatus) : Bool :=
  (st.combined == "success".data) &&
  (match netlifyCheck st.checks with
   | Option.none => true
   | some c => c.conclusion == some ("success".data))

/-- The stop condition of one tick: combined status `failure`, or a netlify
check concluded `failure`. -/
def failCondition (st : PollStatus) : Bool :=
  (st.combined == "failure".data) ||
  (match netlifyCheck st.checks with
   | some c => c.conclusion == some ("failure".data)
   | Option.none => false)

/-- How the watcher ended. -/
inductive WatchOutcome where
  | merged
  | checksFailed
  | timeout
  deriving DecidableEq, Repr

/-- Result of the watcher: outcome, return value, status polls performed,
and `time.sleep(10)` calls performed. -/
structure WatchResult where
  outcome : WatchOutcome
  retval : Bool
  polls : Nat
  sleeps : Nat
  deriving DecidableEq, Repr

/-- The polling loop of `auto_merge_pr_if_checks_pass`: `remaining`
iterations left, `done` ticks already performed.  Each iteration fetches
the status (one poll), merges on the merge condition, stops on the failure
condition, and otherwise sleeps ten seconds and continues; an exhausted
range is the timeout. -/
def autoMergeLoop (poll : Nat → PollStatus) : Nat → Nat → Nat → WatchResult
  | 0, done, sleeps => ⟨.timeout, false, done, sleeps⟩
  | n + 1, done, sleeps =>
    let st := poll done
    if mergeCondition st then ⟨.merged, true, done + 1, sleeps⟩
    else if failCondition st then ⟨.checksFailed, false, done + 1, sleeps⟩
    else autoMergeLoop poll n (done + 1) (sleeps + 1)

/-- The loop bound: `for _ in range(60)`. -/
def pollAttempts : Nat := 60

/-- The fixed delay: `time.sleep(10)` seconds between ticks. -/
def pollDelaySeconds : Nat := 10

/-- Embedding of `auto_merge_pr_if_checks_pass` after URL parsing and
client setup: the status the host reports at each tick enters as `poll`. -/
def auto_merge_pr_if_checks_pass (poll : Nat → PollStatus) : WatchResult :=
  autoMergeLoop poll pollAttempts 0 0

/-! ### The `--sync` run of `main` -/

/-- A console line the per-article loop prints for each article. -/
inductive LogEntry where
  /-- `Error processing article '…': …` from the `except` arm. -/
  | errorProcessing (title : Str)
  /-- `Written …` from `write_markdown_to_repo`. -/
  | written (filename : Str)
  /-- `Skipping … - article already exists` from `write_markdown_to_repo`. -/
  | skipped (filename : Str)
  deriving DecidableEq, Repr

/-- The body of one iteration of the `for article in articles` loop:
summarize, render, write.  Returns the written flag, the filename and the
content directory after the step. -/
def process_article (api_key_set : Bool) (llm : Str → Except PyErr Str)
    (article : Article) (content_dir : Dir) :
    Except PyErr (Bool × Str × Dir) := do
  let llm_result ← call_llm_for_summary api_key_set llm article.content
  let (markdown_content, filename) ← generate_markdown article llm_result
  let (written, dir') ← write_markdown_to_repo filename markdown_content content_dir
  .ok (written, filename, dir')

/-- State threaded through the per-article loop of `main`: the content
directory, the `new_articles_added` flag, and the console log. -/
structure LoopState where
  dir : Dir
  newAdded : Bool
  log : List LogEntry
  deriving DecidableEq, Repr

/-- The `for article in articles` loop of `main`: each article is processed
inside `try/except Exception`; an exception prints an error line for that
article and continues with the next one, leaving the directory and the
flag untouched. -/
def syncLoop (api_key_set : Bool) (llm : Str → Except PyErr Str) :
    List Article → LoopState → LoopState
  | [], st => st
  | a :: rest, st =>
    match process_article api_key_set llm a st.dir with
    | .ok (written, filename, dir') =>
      syncLoop api_key_set llm rest
        ⟨dir', st.newAdded ∨ written,
          st.log ++ [if written then .written filename else .skipped filename]⟩
    | .error _ =>
      syncLoop api_key_set llm rest
        ⟨st.dir, st.newAdded, st.log ++ [.errorProcessing a.title]⟩

/-- The path under which the loop's documents land, relative to the
repository root. -/
def contentPath (filename : Str) : Str := "content/reading/".data ++ filename

/-- The path under which `update_opml_file` writes the export, relative to
the repository root. -/
def opmlPath : Str := "static/myfeeds.opml".data

/-- Everything a `--sync` run leaves behind. -/
structure RunResult where
  dir : Dir
  log : List LogEntry
  opml : Option Str
  opmlWrites : Nat
  /-- Whether `create_git_branch_and_commit` was invoked. -/
  branchCommitRun : Bool
  git : GitCommitResult
  prUrl : Option Str
  openPRsAfter : List PullReq
  /-- `some` exactly when `auto_merge_pr_if_checks_pass` was invoked. -/
  watch : Option WatchResult
  deriving DecidableEq, Repr

/-- The publisher result when the publisher was never reached. -/
def gitNotRun (branches : List Str) : GitCommitResult :=
  ⟨false, branches, [], false, false⟩

/-- Embedding of the `--sync` branch of `main` after the environment check
and `ensure_hugo_repo`.  The externals enter as inputs: the fetched
articles, the summarizer exchange `llm`, the export fetch `opml_response`,
the initial `content/reading` directory `dir0` and export file `opml0`, the
working-tree file list `worktree0`, the local branches, today's `%Y%m%d`
date, and the host's open pull requests.  With no articles the run returns
before touching the export.  After the loop and the export sync, only a
true `new_articles_added` runs the publisher; a true commit runs PR
creation, and a PR URL runs the merge watcher. -/
def main_sync (llm : Str → Except PyErr Str) (articles : List Article)
    (dir0 : Dir) (opml_response : Except PyErr Str) (opml0 : Option Str)
    (worktree0 : List Str) (branches : List Str) (today_compact : Str)
    (openPRs : List PullReq) (new_url : Str) (poll : Nat → PollStatus) :
    Except PyErr RunResult :=
  if articles = [] then
    .ok ⟨dir0, [], opml0, 0, false, gitNotRun branches, Option.none, openPRs,
      Option.none⟩
  else
    let st := syncLoop true llm articles ⟨dir0, false, []⟩
    match update_opml_file opml_response opml0 with
    | .error e => .error e
    | .ok opmlRes =>
      let changedDocs := st.dir.filter
        (fun f => ¬ (f ∈ dir0))
      let changed := changedDocs.map (fun f => contentPath f.1) ++
        (if opmlRes.writes = 0 then [] else [opmlPath])
      let grown := st.dir.map (fun f => contentPath f.1) ++
        (match opmlRes.file with
         | some _ => [opmlPath]
         | Option.none => [])
      let worktree := worktree0 ++ grown.filter (fun p => ¬ (p ∈ worktree0))
      if st.newAdded then
        let branch_name := "reading-update-".data ++ today_compact
        let git := create_git_branch_and_commit worktree changed branches
          (some branch_name) today_compact
        if git.ret then
          let (prUrl, openPRs') :=
            create_pull_request openPRs branch_name ("main".data) new_url
          match prUrl with
          | some _ =>
            .ok ⟨st.dir, st.log, opmlRes.file, opmlRes.writes, true, git,
              prUrl, openPRs', some (auto_merge_pr_if_checks_pass poll)⟩
          | Option.none =>
            .ok ⟨st.dir, st.log, opmlRes.file, opmlRes.writes, true, git,
              prUrl, openPRs', Option.none⟩
        else
          .ok ⟨st.dir, st.log, opmlRes.file, opmlRes.writes, true, git,
            Option.none, openPRs, Option.none⟩
      else
        .ok ⟨st.dir, st.log, opmlRes.file, opmlRes.writes, false,
          gitNotRun branches, Option.none, openPRs, Option.none⟩

/-! ### Specification helpers

Decidable restatements of what the duplicate guard extracts from a single
document, used to phrase the claims without repeating the guard. -/

/-- The metadata block of a document as the guard delimits it: present
exactly when the content starts with the delimiter and a further delimiter
occurrence exists from index 3 on; the payload is what `yaml.safe_load`
makes of the region between them. -/
def docFrontMatter (content : Str) : Option (Except PyErr PyVal) :=
  if pyStartsWith content fmDelim then
    match pyFind content fmDelim 3 with
    | some i => some (yamlSafeLoad (pySlice content 3 i))
    | Option.none => Option.none
  else Option.none

/-- The `link` field of a document's metadata block, when the block exists
and loads as a mapping. -/
def docLinkVal (content : Str) : Option YamlVal :=
  match docFrontMatter content with
  | some (.ok (.dict es)) => some (pyDictGet es ("link".data))
  | _ => Option.none

/-- A document the guard can scan without raising: either it has no
complete delimiter pair (and is skipped), or its block loads as a
mapping. -/
def scanSafe (content : Str) : Bool :=
  match docFrontMatter content with
  | Option.none => true
  | some (.ok (.dict _)) => true
  | _ => false

/-- Equality of embedded call results is decidable, so concrete runs of the
embedded functions can be checked by evaluation. -/
instance exceptDecEq {ε α : Type} [DecidableEq ε] [DecidableEq α] :
    DecidableEq (Except ε α)
  | .ok x, .ok y =>
    if h : x = y then .isTrue (congrArg Except.ok h)
    else .isFalse (fun hh => h (Except.ok.inj hh))
  | .error e, .error f =>
    if h : e = f then .isTrue (congrArg Except.error h)
    else .isFalse (fun hh => h (Except.error.inj hh))
  | .ok _, .error _ => .isFalse (fun hh => Except.noConfusion hh)
  | .error _, .ok _ => .isFalse (fun hh => Except.noConfusion hh)

/-! ## Lemmas -/

@[simp] theorem except_bind_ok {α β ε : Type} (a : α) (f : α → Except ε β) :
    (Except.ok a >>= f) = f a := rfl

@[simp] theorem except_bind_error {α β ε : Type} (e : ε) (f : α → Except ε β) :
    ((Except.error e : Except ε α) >>= f) = Except.error e := rfl

theorem checkFileForLink_eq (link : YamlVal) (content : Str) :
    checkFileForLink link content =
      match docFrontMatter content with
      | Option.none => .ok false
      | some (.error e) => .error e
      | some (.ok fm) =>
        match pyGetAttrGet fm ("link".data) with
        | .error e => .error e
        | .ok v => .ok (decide (v = link)) := by
  unfold checkFileForLink docFrontMatter
  by_cases hs : pyStartsWith content fmDelim = true
  · simp only [hs, if_true]
    match hf : pyFind content fmDelim 3 with
    | Option.none => rfl
    | some i =>
      match hy : yamlSafeLoad (pySlice content 3 i) with
      | .error e => simp [hy, Except.bind]
      | .ok fm =>
        match hv : pyGetAttrGet fm ("link".data) with
        | .error e => simp [hy, hv, Except.bind]
        | .ok v => simp [hy, hv, Except.bind]
  · simp [hs]

theorem checkFileForLink_of_docLinkVal (link : YamlVal) (content : Str)
    (h : docLinkVal content = some link) :
    checkFileForLink link content = .ok true := by
  rw [checkFileForLink_eq]
  unfold docLinkVal at h
  match hd : docFrontMatter content with
  | Option.none => rw [hd] at h; simp at h
  | some (.error e) => rw [hd] at h; simp at h
  | some (.ok PyVal.none) => rw [hd] at h; simp at h
  | some (.ok (.str s)) => rw [hd] at h; simp at h
  | some (.ok (.dict es)) =>
    rw [hd] at h
    simp only [Option.some.injEq] at h
    simp [pyGetAttrGet, h]

theorem checkFileForLink_isOk_of_scanSafe (link : YamlVal) (content : Str)
    (h : scanSafe content = true) :
    ∃ b, checkFileForLink link content = .ok b := by
  rw [checkFileForLink_eq]
  unfold scanSafe at h
  match hd : docFrontMatter content with
  | Option.none => exact ⟨false, by simp⟩
  | some (.error e) => rw [hd] at h; simp at h
  | some (.ok PyVal.none) => rw [hd] at h; simp at h
  | some (.ok (.str s)) => rw [hd] at h; simp at h
  | some (.ok (.dict es)) =>
    exact ⟨decide (pyDictGet es ("link".data) = link), by simp [pyGetAttrGet]⟩

theorem check_duplicate_link_append (link : YamlVal) (xs ys : Dir) :
    check_duplicate_link link (xs ++ ys) =
      (check_duplicate_link link xs).bind
        (fun b => if b then .ok true else check_duplicate_link link ys) := by
  induction xs with
  | nil => simp [check_duplicate_link, Except.bind]
  | cons f rest ih =>
    simp only [List.cons_append, check_duplicate_link]
    by_cases hm : pyEndsWith f.1 (".md".data) = true
    · simp only [hm, if_true]
      match hc : checkFileForLink link f.2 with
      | .error e => simp [Except.bind]
      | .ok true => simp [Except.bind]
      | .ok false => exact ih
    · simp only [hm, if_false, Bool.false_eq_true]
      exact ih

theorem syncLoop_append (api : Bool) (llm : Str → Except PyErr Str)
    (xs ys : List Article) (st : LoopState) :
    syncLoop api llm (xs ++ ys) st = syncLoop api llm ys (syncLoop api llm xs st) := by
  induction xs generalizing st with
  | nil => rfl
  | cons a rest ih =>
    simp only [List.cons_append, syncLoop]
    match h : process_article api llm a st.dir with
    | .ok (w, fn, d) => exact ih _
    | .error e => exact ih _

theorem autoMergeLoop_timeout (poll : Nat → PollStatus) (n done sleeps : Nat)
    (h : ∀ i, done ≤ i → i < done + n →
      mergeCondition (poll i) = false ∧ failCondition (poll i) = false) :
    autoMergeLoop poll n done sleeps = ⟨.timeout, false, done + n, sleeps + n⟩ := by
  induction n generalizing done sleeps with
  | zero => simp [autoMergeLoop]
  | succ m ih =>
    have hd := h done (le_refl done) (by omega)
    have ht := ih (done + 1) (sleeps + 1) (fun i h1 h2 => h i (by omega) (by omega))
    unfold autoMergeLoop
    rw [if_neg (by simp [hd.1]), if_neg (by simp [hd.2]), ht]
    have h1 : done + 1 + m = done + (m + 1) := by omega
    have h2 : sleeps + 1 + m = sleeps + (m + 1) := by omega
    rw [h1, h2]

/-! ## Claims -/

/-- C2, counterexample.  The claim says the guard's scan never raises on a
document whose metadata block does not parse as structured key/value data.
But for an existing document `---\n---\nbody` the block between the
delimiters is `\n`, `yaml.safe_load` returns `None` for it, and the
subsequent `front_matter.get("link")` raises `AttributeError`
(`'NoneType' object has no attribute 'get'`), which nothing catches: the
scan raises instead of treating the document as non-matching. -/
theorem C2_guard_raises_on_unparsable_block :
    check_duplicate_link (.vstr ("https://example.com/a".data))
      [(("m.md").data, ("---\n---\nbody").data)] = .error .attributeError := by
  decide

/-- C2, amended.  The tolerance that does hold: a document with no leading
delimiter or no closing delimiter is skipped silently — the scan over a
corpus containing it behaves exactly as over the corpus without it, so such
a document neither raises nor causes a true result.  (A document whose
complete block loads as a non-mapping still raises, per the
counterexample.) -/
theorem C2_guard_skips_documents_without_delimiters (link : YamlVal)
    (name content : Str) (xs ys : Dir)
    (h : pyStartsWith content fmDelim = false ∨
      pyFind content fmDelim 3 = Option.none) :
    check_duplicate_link link (xs ++ (name, content) :: ys) =
      check_duplicate_link link (xs ++ ys) := by
  have hfile : checkFileForLink link content = .ok false := by
    unfold checkFileForLink
    rcases h with h | h
    · simp [h]
    · cases hs : pyStartsWith content fmDelim <;> simp [hs, h]
  have hstep : check_duplicate_link link ((name, content) :: ys) =
      check_duplicate_link link ys := by
    unfold check_duplicate_link
    by_cases hm : pyEndsWith name (".md".data) = true
    · simp only [hm, if_true, hfile]
      cases ys <;> rfl
    · simp only [hm, if_false, Bool.false_eq_true]
      cases ys <;> rfl
  rw [check_duplicate_link_append, check_duplicate_link_append, hstep]

/-- Witness for the amended C2 at a concrete corpus: a document with no
closing delimiter is skipped, leaving the scan of the surrounding (here
empty) corpus unchanged. -/
theorem C2_guard_skips_documents_without_delimiters_witness :
    check_duplicate_link (.vstr ("x".data))
      [(("bad.md").data, ("---\nno closing").data)] =
      check_duplicate_link (.vstr ("x".data)) [] :=
  C2_guard_skips_documents_without_delimiters (.vstr ("x".data))
    (("bad.md").data) (("---\nno closing").data) [] [] (Or.inr (by decide))

/-- C3, counterexample.  The claim quantifies over every corpus containing
a document whose metadata `link` equals L.  In this corpus the second
document's block does bind `link` to L (first conjunct), but the scan meets
the earlier document `---\njust text\n---\n` first, whose block loads as
the string `just text`; `front_matter.get("link")` on a `str` raises
`AttributeError`, so the guard raises instead of returning true. -/
theorem C3_guard_not_sound_behind_malformed_document :
    docLinkVal (("---\nlink: https://example.com/a\n---\n\nbody").data) =
      some (.vstr ("https://example.com/a".data)) ∧
    check_duplicate_link (.vstr ("https://example.com/a".data))
      [(("00-bad.md").data, ("---\njust text\n---\n").data),
       (("2025-01-01-a.md").data,
        ("---\nlink: https://example.com/a\n---\n\nbody").data)] =
      .error .attributeError := by
  constructor
  · decide
  · decide

/-- C3, amended.  Soundness holds on scan-safe corpora: if every document
either lacks a complete delimiter pair or has a block loading as a mapping,
then the presence of one `.md` document whose block binds `link` to the
candidate makes the guard return true — in particular a corpus cannot
acquire a second document for a link it already holds in a well-formed
document. -/
theorem C3_guard_sound_on_scan_safe_corpus (link : YamlVal) (files : Dir)
    (hsafe : ∀ f ∈ files, scanSafe f.2 = true)
    (hmem : ∃ f ∈ files, pyEndsWith f.1 (".md".data) = true ∧
      docLinkVal f.2 = some link) :
    check_duplicate_link link files = .ok true := by
  induction files with
  | nil => simp at hmem
  | cons f rest ih =>
    obtain ⟨g, hg, hgmd, hglink⟩ := hmem
    rcases List.mem_cons.mp hg with rfl | hgrest
    · unfold check_duplicate_link
      simp [hgmd, checkFileForLink_of_docLinkVal link g.2 hglink]
    · have hrest : check_duplicate_link link rest = .ok true :=
        ih (fun x hx => hsafe x (List.mem_cons_of_mem f hx))
          ⟨g, hgrest, hgmd, hglink⟩
      unfold check_duplicate_link
      by_cases hm : pyEndsWith f.1 (".md".data) = true
      · obtain ⟨b, hb⟩ := checkFileForLink_isOk_of_scanSafe link f.2
          (hsafe f (List.mem_cons_self f rest))
        cases b
        · simp [hm, hb, hrest]
        · simp [hm, hb]
      · simp [hm, hrest]

set_option maxRecDepth 8192 in
/-- Witness for the amended C3, on the document the renderer itself
produces: rendering a concrete article and placing the result in the corpus
under its generated filename makes the guard report the article's link as a
duplicate. -/
theorem C3_guard_sound_on_scan_safe_corpus_witness :
    generate_markdown
      ⟨("Lean Rocks").data, ("Ada").data, ("Some body.").data,
       ("https://blog.example.org/lean").data, ("Proof Feed").data,
       ("2025-03-04").data⟩
      (.dict [(("summary").data, .vstr (("Nice post.").data)),
              (("tags").data, .vlist [("lean").data]),
              (("categories").data, .vlist [("general").data])]) =
      .ok (("---\ntitle: Lean Rocks\nauthor: Ada\nlink: https://blog.example.org/lean\nsource: Proof Feed\nsummary: Nice post.\ntags:\n- lean\ncategories:\n- general\ndate: '2025-03-04'\n---\n\nSome body.").data,
           ("2025-03-04-lean-rocks.md").data) ∧
    check_duplicate_link (.vstr (("https://blog.example.org/lean").data))
      [(("2025-03-04-lean-rocks.md").data,
        ("---\ntitle: Lean Rocks\nauthor: Ada\nlink: https://blog.example.org/lean\nsource: Proof Feed\nsummary: Nice post.\ntags:\n- lean\ncategories:\n- general\ndate: '2025-03-04'\n---\n\nSome body.").data)] =
      .ok true := by
  constructor
  · decide
  · exact C3_guard_sound_on_scan_safe_corpus
      (.vstr (("https://blog.example.org/lean").data)) _ (by decide) (by decide)

theorem docLinkVal_extract (content : Str) (lv : YamlVal)
    (hstart : pyStartsWith content fmDelim = true)
    (h : docLinkVal content = some lv) :
    ∃ i es, pyFind content fmDelim 3 = some i ∧
      yamlSafeLoad (pySlice content 3 i) = .ok (.dict es) ∧
      pyDictGet es ("link".data) = lv := by
  unfold docLinkVal docFrontMatter at h
  simp only [hstart, if_true] at h
  match hf : pyFind content fmDelim 3 with
  | Option.none => rw [hf] at h; simp at h
  | some i =>
    rw [hf] at h
    simp only [] at h
    match hy : yamlSafeLoad (pySlice content 3 i) with
    | .error e => rw [hy] at h; simp at h
    | .ok PyVal.none => rw [hy] at h; simp at h
    | .ok (.str s) => rw [hy] at h; simp at h
    | .ok (.dict es) =>
      rw [hy] at h
      simp only [Option.some.injEq] at h
      exact ⟨i, es, rfl, hy, h⟩

/-- C4.  Write idempotency of the repository writer: for a well-formed
document (an `.md` filename, both delimiters present, a block loading as a
mapping with a `link` entry) whose link is not yet in the corpus and whose
filename is fresh, the first call writes exactly one new file and returns
true, and a second call with the same document and directory is skipped as
a duplicate, returns false, and leaves the directory unchanged.  The
duplicate check inside `write_markdown_to_repo` re-extracts the link from
the document content itself — the function has no link parameter at all
(the claim's "not a caller-supplied copy"). -/
theorem C4_write_idempotent (filename content : Str) (lv : YamlVal) (dir0 : Dir)
    (hmd : pyEndsWith filename (".md".data) = true)
    (hstart : pyStartsWith content fmDelim = true)
    (hlink : docLinkVal content = some lv)
    (hfresh : check_duplicate_link lv dir0 = .ok false)
    (hname : ∀ f ∈ dir0, f.1 ≠ filename) :
    write_markdown_to_repo filename content dir0 =
      .ok (true, dir0 ++ [(filename, content)]) ∧
    write_markdown_to_repo filename content (dir0 ++ [(filename, content)]) =
      .ok (false, dir0 ++ [(filename, content)]) := by
  obtain ⟨i, es, hf, hy, hv⟩ := docLinkVal_extract content lv hstart hlink
  have hany : dir0.any (fun f => f.1 = filename) = false := by
    rw [List.any_eq_false]
    intro x hx
    simpa using hname x hx
  have hw : dirWrite dir0 filename content = dir0 ++ [(filename, content)] := by
    unfold dirWrite
    simp [hany]
  have hdup2 : check_duplicate_link lv (dir0 ++ [(filename, content)]) =
      .ok true := by
    rw [check_duplicate_link_append, hfresh]
    simp only [Except.bind, if_false, Bool.false_eq_true]
    unfold check_duplicate_link
    simp [hmd, checkFileForLink_of_docLinkVal lv content hlink]
  constructor
  · unfold write_markdown_to_repo
    rw [hf]
    simp only []
    rw [hy]
    simp only [except_bind_ok, pyGetAttrGet, hv, hfresh]
    rw [hw]
    simp
  · unfold write_markdown_to_repo
    rw [hf]
    simp only []
    rw [hy]
    simp only [except_bind_ok, pyGetAttrGet, hv, hdup2]
    simp

set_option maxRecDepth 8192 in
/-- Witness for C4 at a concrete well-formed document against an empty
corpus: the first write lands the file, the second is skipped. -/
theorem C4_write_idempotent_witness :
    write_markdown_to_repo (("2025-02-02-c4-example.md").data)
      (("---\nlink: https://example.com/c4\n---\n\nbody text").data) [] =
      .ok (true, [(("2025-02-02-c4-example.md").data,
        ("---\nlink: https://example.com/c4\n---\n\nbody text").data)]) ∧
    write_markdown_to_repo (("2025-02-02-c4-example.md").data)
      (("---\nlink: https://example.com/c4\n---\n\nbody text").data)
      [(("2025-02-02-c4-example.md").data,
        ("---\nlink: https://example.com/c4\n---\n\nbody text").data)] =
      .ok (false, [(("2025-02-02-c4-example.md").data,
        ("---\nlink: https://example.com/c4\n---\n\nbody text").data)]) :=
  C4_write_idempotent (("2025-02-02-c4-example.md").data)
    (("---\nlink: https://example.com/c4\n---\n\nbody text").data)
    (.vstr (("https://example.com/c4").data)) []
    (by decide) (by decide) (by decide) (by decide) (by decide)

/-- C1 (code bug).  `call_llm_for_summary` promises a dict in its docstring
but returns the reply message content unchanged: even a reply in exactly
the JSON shape the prompt requests comes back as a raw string, with no
parsing and no shape validation and no error raised by the adapter.  The
renderer then receives that unparsed string, and its first subscript
`llm_summary["summary"]` raises `TypeError` — so the failure surfaces in
the Document Renderer instead of the Summarizer Adapter failing with a
provider error. -/
theorem C1_summarizer_hands_raw_reply_to_renderer :
    call_llm_for_summary true
      (fun _ => .ok (("\x7b\"summary\": \"A summary.\", \"tags\": [\"t1\"], \"categories\": [\"c1\"]\x7d").data))
      (("Some article content.").data) =
      .ok (.str (("\x7b\"summary\": \"A summary.\", \"tags\": [\"t1\"], \"categories\": [\"c1\"]\x7d").data)) ∧
    generate_markdown
      ⟨("T").data, ("A").data, ("B").data, ("https://e.com/p").data,
       ("F").data, ("2025-01-02").data⟩
      (.str (("\x7b\"summary\": \"A summary.\", \"tags\": [\"t1\"], \"categories\": [\"c1\"]\x7d").data)) =
      .error .typeError :=
  ⟨rfl, rfl⟩

/-- C5 (code bug).  The staging step runs
`git add content/reading/* myfeeds.opml` at the repository root, but the
export is written to `static/myfeeds.opml`: neither pathspec matches the
export path the pipeline writes (first conjunct), and in a working tree
whose export lives only at `static/myfeeds.opml` the root-level
`myfeeds.opml` pathspec matches nothing at all, so `git add` exits nonzero
and the whole publish returns false without committing anything (second
conjunct). -/
theorem C5_export_path_never_staged :
    (∀ sp ∈ gitAddPathspecs, matchesPathspec sp opmlPath = false) ∧
    create_git_branch_and_commit
      [("content/reading/2025-06-01-hello-world.md").data, opmlPath,
       ("config.toml").data]
      [("content/reading/2025-06-01-hello-world.md").data, opmlPath]
      [("main").data] (some (("reading-update-20250601").data))
      (("20250601").data) =
      ⟨false, [("main").data, ("reading-update-20250601").data], [],
        false, false⟩ := by
  constructor
  · decide
  · decide

/-- C6, counterexample.  When the fetched export equals the on-disk copy,
`update_opml_file` performs no write — and still returns true, so the
boolean is not "true exactly when the file changed". -/
theorem C6_returns_true_without_change :
    update_opml_file (.ok (("<opml version=\"1.0\"/>").data))
      (some (("<opml version=\"1.0\"/>").data)) =
      .ok ⟨true, some (("<opml version=\"1.0\"/>").data), 0⟩ := by
  decide

/-- C6, amended.  The comparison and write-gating hold as claimed: the
fetched export is compared byte-for-byte, a write happens exactly when the
on-disk copy differs (or is absent), and a second call against the
unchanged remote document performs no write.  But the returned boolean is a
success flag, true on both branches, not a changed flag. -/
theorem C6_writes_only_on_change (response : Str) (existing : Option Str) :
    update_opml_file (.ok response) existing =
      .ok ⟨true, some response, if existing = some response then 0 else 1⟩ ∧
    update_opml_file (.ok response) (some response) =
      .ok ⟨true, some response, 0⟩ := by
  constructor
  · unfold update_opml_file
    match existing with
    | Option.none => simp
    | some cur =>
      by_cases h : cur = response
      · subst h; simp
      · simp [h]
  · simp [update_opml_file]

/-- C7, counterexample.  A first same-day publish (in a tree that happens
to hold a root-level `myfeeds.opml`, so staging succeeds) commits and
creates a pull request.  The second invocation with the branch now
existing does not reuse it: `git checkout -b` exits nonzero, the function
returns false with nothing committed, and — since `main` only calls
`create_pull_request` after a true return — no handle is returned, rather
than the first invocation's. -/
theorem C7_second_publish_fails_on_branch_creation :
    (create_git_branch_and_commit
      [("content/reading/a.md").data, ("myfeeds.opml").data]
      [("content/reading/a.md").data]
      [("main").data] (some (("reading-update-20250601").data))
      (("20250601").data)).ret = true ∧
    create_pull_request [] (("reading-update-20250601").data) (("main").data)
      (("https://github.com/o/r/pull/7").data) =
      (some (("https://github.com/o/r/pull/7").data),
       [⟨("reading-update-20250601").data, ("main").data,
         ("https://github.com/o/r/pull/7").data⟩]) ∧
    create_git_branch_and_commit
      [("content/reading/a.md").data, ("myfeeds.opml").data]
      [("content/reading/b.md").data]
      [("main").data, ("reading-update-20250601").data]
      (some (("reading-update-20250601").data)) (("20250601").data) =
      ⟨false, [("main").data, ("reading-update-20250601").data], [],
        false, false⟩ := by
  refine ⟨by decide, by decide, by decide⟩

/-- C7, amended.  What does hold: when the day's branch already exists,
`create_git_branch_and_commit` returns false without committing (so `main`
never reaches PR creation and no second pull request appears), and
`create_pull_request` itself, when an open pull request from that branch
to the base exists, returns the existing request's URL and creates
nothing. -/
theorem C7_publish_idempotency_amended (wt ch br : List Str)
    (bn td base url : Str) (prs : List PullReq) (p : PullReq) (ps : List PullReq)
    (hb : bn ∈ br)
    (hp : prs.filter (fun q => q.head = bn ∧ q.base = base) = p :: ps) :
    create_git_branch_and_commit wt ch br (some bn) td =
      ⟨false, br, [], false, false⟩ ∧
    create_pull_request prs bn base url = (some p.url, prs) := by
  constructor
  · unfold create_git_branch_and_commit
    by_cases hch : ch = []
    · simp [hch]
    · simp [hch, hb]
  · unfold create_pull_request
    rw [hp]

/-- Witness for the amended C7 at concrete states: the existing branch
makes the publish return false, and an existing open pull request is
returned instead of a new one. -/
theorem C7_publish_idempotency_amended_witness :
    create_git_branch_and_commit [("f").data] [("c").data]
      [("main").data, ("reading-update-20250601").data]
      (some (("reading-update-20250601").data)) (("20250601").data) =
      ⟨false, [("main").data, ("reading-update-20250601").data], [],
        false, false⟩ ∧
    create_pull_request
      [⟨("reading-update-20250601").data, ("main").data,
        ("https://github.com/o/r/pull/7").data⟩]
      (("reading-update-20250601").data) (("main").data)
      (("https://github.com/o/r/pull/9").data) =
      (some (("https://github.com/o/r/pull/7").data),
       [⟨("reading-update-20250601").data, ("main").data,
         ("https://github.com/o/r/pull/7").data⟩]) :=
  C7_publish_idempotency_amended (("f").data :: []) (("c").data :: [])
    [("main").data, ("reading-update-20250601").data]
    (("reading-update-20250601").data) (("20250601").data) (("main").data)
    (("https://github.com/o/r/pull/9").data)
    [⟨("reading-update-20250601").data, ("main").data,
      ("https://github.com/o/r/pull/7").data⟩]
    ⟨("reading-update-20250601").data, ("main").data,
      ("https://github.com/o/r/pull/7").data⟩ []
    (by decide) (by decide)

/-- C8.  Per-article failure isolation in the loop of `main`: when the
summarization exchange for article `b` fails, the run over `xs ++ b :: ys`
equals the run that processes `xs`, logs one error line for `b` while
leaving the directory and the `new_articles_added` flag untouched (so
documents already written for earlier articles remain on disk), and then
processes every article of `ys` from exactly that state — the run is never
aborted. -/
theorem C8_per_article_failure_isolated (llm : Str → Except PyErr Str)
    (xs ys : List Article) (b : Article) (st0 : LoopState) (e : PyErr)
    (hb : llm b.content = .error e) :
    syncLoop true llm (xs ++ b :: ys) st0 =
      syncLoop true llm ys
        ⟨(syncLoop true llm xs st0).dir, (syncLoop true llm xs st0).newAdded,
         (syncLoop true llm xs st0).log ++ [.errorProcessing b.title]⟩ := by
  rw [syncLoop_append]
  have hpb : ∀ d, process_article true llm b d = .error e := by
    intro d
    unfold process_article call_llm_for_summary
    simp [hb]
  simp only [syncLoop, hpb]

/-- Witness for C8 at a concrete batch: the first article's summarization
fails with a transport error, and the loop continues into the second
article from an unchanged state with the error logged. -/
theorem C8_per_article_failure_isolated_witness :
    syncLoop true
      (fun c => if c = ("bad body").data then .error .apiError
        else .ok (("reply").data))
      [⟨("Bad").data, ("A").data, ("bad body").data,
        ("https://e.com/bad").data, ("F").data, ("2025-01-01").data⟩,
       ⟨("Good").data, ("A").data, ("good body").data,
        ("https://e.com/good").data, ("F").data, ("2025-01-01").data⟩]
      ⟨[], false, []⟩ =
    syncLoop true
      (fun c => if c = ("bad body").data then .error .apiError
        else .ok (("reply").data))
      [⟨("Good").data, ("A").data, ("good body").data,
        ("https://e.com/good").data, ("F").data, ("2025-01-01").data⟩]
      ⟨[], false, [.errorProcessing (("Bad").data)]⟩ :=
  C8_per_article_failure_isolated
    (fun c => if c = ("bad body").data then .error .apiError
      else .ok (("reply").data))
    []
    [⟨("Good").data, ("A").data, ("good body").data,
      ("https://e.com/good").data, ("F").data, ("2025-01-01").data⟩]
    ⟨("Bad").data, ("A").data, ("bad body").data,
      ("https://e.com/bad").data, ("F").data, ("2025-01-01").data⟩
    ⟨[], false, []⟩ .apiError (by decide)

/-- C9.  Bounded polling of the merge watcher: on any status sequence
whose ticks never satisfy the merge condition and never satisfy the
failure condition, the loop performs exactly its fixed 60 polls with its
fixed ten-second sleep after each, ends as a timeout, and returns false
without ever reaching the merge call (which only the merged outcome
performs) — the pull request is left open. -/
theorem C9_merge_watcher_times_out (poll : Nat → PollStatus)
    (h : ∀ i, i < pollAttempts →
      mergeCondition (poll i) = false ∧ failCondition (poll i) = false) :
    auto_merge_pr_if_checks_pass poll =
      ⟨.timeout, false, pollAttempts, pollAttempts⟩ := by
  unfold auto_merge_pr_if_checks_pass
  have ht := autoMergeLoop_timeout poll pollAttempts 0 0
    (fun i _ h2 => h i (by omega))
  simpa using ht

/-- Witness for C9: a status source that reports a pending combined state
with no checks forever makes the watcher time out after its 60 ticks. -/
theorem C9_merge_watcher_times_out_witness :
    auto_merge_pr_if_checks_pass (fun _ => ⟨("pending").data, []⟩) =
      ⟨.timeout, false, pollAttempts, pollAttempts⟩ :=
  C9_merge_watcher_times_out (fun _ => ⟨("pending").data, []⟩)
    (fun _ _ =>
      ⟨(by decide : mergeCondition ⟨("pending").data, []⟩ = false),
       (by decide : failCondition ⟨("pending").data, []⟩ = false)⟩)

/-- C10.  When the per-article loop writes no new document, the sync run
never invokes the publisher or the watcher: `create_git_branch_and_commit`
is not run, nothing is committed, no pull request is created or reused and
none is polled — even though the export file was rewritten with changed
content earlier in the same run (one write, file now the fetched content),
leaving that export change uncommitted in the workspace. -/
theorem C10_no_publish_without_new_articles (llm : Str → Except PyErr Str)
    (articles : List Article) (dir0 : Dir) (c : Str) (opml0 : Option Str)
    (wt br : List Str) (today : Str) (prs : List PullReq) (url : Str)
    (poll : Nat → PollStatus)
    (hne : articles ≠ [])
    (hnew : (syncLoop true llm articles ⟨dir0, false, []⟩).newAdded = false)
    (hch : opml0 ≠ some c) :
    main_sync llm articles dir0 (.ok c) opml0 wt br today prs url poll =
      .ok ⟨(syncLoop true llm articles ⟨dir0, false, []⟩).dir,
           (syncLoop true llm articles ⟨dir0, false, []⟩).log,
           some c, 1, false, gitNotRun br, Option.none, prs, Option.none⟩ := by
  unfold main_sync
  rw [if_neg hne]
  have hopml : update_opml_file (.ok c) opml0 = .ok ⟨true, some c, 1⟩ := by
    unfold update_opml_file
    match opml0 with
    | Option.none => rfl
    | some cur =>
      have hcc : ¬ cur = c := fun hh => hch (by rw [hh])
      simp [hcc]
  rw [hopml]
  simp [hnew]

/-- Witness for C10: a run whose only article fails to summarize (so no
document is written) still rewrites the differing export, and the result
records no branch, no commit, no pull request and no watcher run. -/
theorem C10_no_publish_without_new_articles_witness :
    main_sync (fun _ => .error .apiError)
      [⟨("T").data, ("A").data, ("B").data, ("https://e.com/t").data,
        ("F").data, ("2025-01-01").data⟩]
      [] (.ok (("<opml/>").data)) Option.none [] [("main").data]
      (("20250601").data) [] (("u").data) (fun _ => ⟨("pending").data, []⟩) =
      .ok ⟨[], [.errorProcessing (("T").data)], some (("<opml/>").data), 1,
        false, gitNotRun [("main").data], Option.none, [], Option.none⟩ :=
  C10_no_publish_without_new_articles (fun _ => .error .apiError)
    [⟨("T").data, ("A").data, ("B").data, ("https://e.com/t").data,
      ("F").data, ("2025-01-01").data⟩]
    [] (("<opml/>").data) Option.none [] [("main").data] (("20250601").data)
    [] (("u").data) (fun _ => ⟨("pending").data, []⟩)
    (by decide) (by decide) (by decide)

end SyncFavorites
